import Mathlib

/-!
Verification development for the monevo budget/ledger core.

The Python source is shallowly embedded:
the Ledger Store (src/database.py, class SQLiteRepository) becomes pure
functions over an explicit `Store` state holding the two tables as lists;
the service layer (src/services.py) becomes functions returning a
result/message pair together with the next state; the free-text intent
parser (src/message_parser.py) becomes a set of matching functions over
character lists implementing the regular expressions of the source.
Monetary amounts (Python float) are modelled as rationals; timestamps
(datetime) as naturals; user-facing message strings as an inductive type
with one constructor per message site of the source.
-/

namespace Monevo

/-! ## Python string primitives

Character-level models of the Python string operations used by the
source: str.lower, str.strip, and the regex classes backslash-s,
backslash-d and backslash-w.  Python lower and the IGNORECASE regex
flag are Unicode aware; the model covers ASCII plus the accented
letters that occur in the Spanish vocabulary of this program. -/

/-- Uppercase-to-lowercase table: ASCII letters plus the accented
letters used by the source patterns. Models Python str.lower. -/
def lowerTable : List (Char × Char) :=
  [('A', 'a'), ('B', 'b'), ('C', 'c'), ('D', 'd'), ('E', 'e'), ('F', 'f'),
   ('G', 'g'), ('H', 'h'), ('I', 'i'), ('J', 'j'), ('K', 'k'), ('L', 'l'),
   ('M', 'm'), ('N', 'n'), ('O', 'o'), ('P', 'p'), ('Q', 'q'), ('R', 'r'),
   ('S', 's'), ('T', 't'), ('U', 'u'), ('V', 'v'), ('W', 'w'), ('X', 'x'),
   ('Y', 'y'), ('Z', 'z'),
   ('Á', 'á'), ('É', 'é'), ('Í', 'í'), ('Ó', 'ó'), ('Ú', 'ú'), ('Ñ', 'ñ')]

/-- Lowercase one character (Python str.lower, per character). -/
def pyLowerChar (c : Char) : Char :=
  match lowerTable.find? (fun q => q.1 == c) with
  | some q => q.2
  | none => c

/-- Whitespace class of Python str.strip and the regex class
backslash-s. -/
def pySpace (c : Char) : Bool :=
  c == ' ' || c == '\t' || c == '\n' || c == '\r' || c == '\x0b' || c == '\x0c'

/-- Word-character class of the regex class backslash-w: ASCII
alphanumerics, underscore, and the accented letters of the vocabulary. -/
def pyWordChar (c : Char) : Bool :=
  c.isAlphanum || c == '_' ||
    ['á', 'é', 'í', 'ó', 'ú', 'ñ', 'Á', 'É', 'Í', 'Ó', 'Ú', 'Ñ'].contains c

/-- Strip whitespace from both ends of a character list. -/
def stripChars (l : List Char) : List Char :=
  (l.dropWhile pySpace).rdropWhile pySpace

/-- Python str.strip. -/
def pyStrip (s : String) : String :=
  String.mk (stripChars s.data)

/-- Python str.lower. -/
def pyLowerStr (s : String) : String :=
  String.mk (s.data.map pyLowerChar)

/-- Category normalization of the source: categoria.lower().strip(),
as performed by the entity constructors and the store lookups. -/
def pyNormalize (s : String) : String :=
  pyStrip (pyLowerStr s)

/-! ## Data model (src/models.py)

Amounts (Python float) are modelled as rationals, timestamps
(datetime.now or the stored ISO string) as naturals.  The store
assigned autoincrement ids are omitted: no claim mentions them. -/

/-- Movement kind. The source stores the strings gasto and ingreso and
the Movimiento constructor raises ValueError on any other string; the
service layer only ever passes these two, so the kind is an inductive. -/
inductive Tipo
  | gasto
  | ingreso
deriving DecidableEq

/-- Budget row (dataclass Presupuesto). -/
structure Presupuesto where
  categoria : String
  monto : ℚ
  periodicidad : String
  usuario_id : String
  creado_en : Nat
deriving DecidableEq

/-- Dataclass construction: post-init lowercases and strips the
category (models Presupuesto.__post_init__). -/
def Presupuesto.make (usuario_id categoria : String) (monto : ℚ)
    (periodicidad : String) (now : Nat) : Presupuesto :=
  { categoria := pyNormalize categoria
    monto := monto
    periodicidad := periodicidad
    usuario_id := usuario_id
    creado_en := now }

/-- Movement row (dataclass Movimiento). -/
structure Movimiento where
  categoria : String
  tipo : Tipo
  monto : ℚ
  usuario_id : String
  concepto : String
  fecha : Nat
deriving DecidableEq

/-- Dataclass construction: post-init lowercases and strips the
category (models Movimiento.__post_init__). -/
def Movimiento.make (usuario_id categoria : String) (tipo : Tipo) (monto : ℚ)
    (concepto : String) (now : Nat) : Movimiento :=
  { categoria := pyNormalize categoria
    tipo := tipo
    monto := monto
    usuario_id := usuario_id
    concepto := concepto
    fecha := now }

/-- Derived summary row (dataclass ResumenPresupuesto). -/
structure ResumenPresupuesto where
  categoria : String
  monto_inicial : ℚ
  gastos : ℚ
  ingresos : ℚ
  saldo : ℚ
  periodicidad : String
deriving DecidableEq

/-- Property porcentaje_usado of ResumenPresupuesto: percentage of the
budget used, 0 when the initial amount is 0. -/
def ResumenPresupuesto.porcentaje_usado (r : ResumenPresupuesto) : ℚ :=
  if r.monto_inicial = 0 then 0 else r.gastos / r.monto_inicial * 100

/-! ## Ledger Store (src/database.py, class SQLiteRepository)

The two SQLite tables become two lists in insertion order; every SQL
statement of the source becomes the corresponding list operation. -/

/-- The database state: the presupuestos and movimientos tables. -/
structure Store where
  presupuestos : List Presupuesto
  movimientos : List Movimiento
deriving DecidableEq

/-- The state produced by init_db: both tables empty. -/
def Store.empty : Store := ⟨[], []⟩

namespace SQLiteRepository

/-- SELECT 1 FROM presupuestos WHERE usuario_id = ? AND categoria = ?,
with the category argument lowercased and stripped by the caller side
of the query (categoria.lower().strip() in the source). -/
def presupuesto_existe (s : Store) (usuario_id categoria : String) : Bool :=
  s.presupuestos.any fun p =>
    p.usuario_id == usuario_id && p.categoria == pyNormalize categoria

/-- Creation: returns false without writing when the key already
exists, otherwise INSERTs the row and returns true. -/
def crear_presupuesto (s : Store) (p : Presupuesto) : Bool × Store :=
  if presupuesto_existe s p.usuario_id p.categoria then (false, s)
  else (true, { s with presupuestos := s.presupuestos ++ [p] })

/-- Python truthiness of the optional periodicity argument: None and
the empty string are falsy. -/
def periodicidadTruthy : Option String → Bool
  | none => false
  | some per => per != ""

/-- UPDATE of an existing budget. Mirrors the source exactly: the
existence check normalizes the category, but the UPDATE statements
use the raw category argument in their WHERE clause. When the
periodicity argument is truthy both monto and periodicidad are SET,
otherwise only monto. -/
def actualizar_presupuesto (s : Store) (usuario_id categoria : String)
    (monto : ℚ) (periodicidad : Option String) : Bool × Store :=
  if presupuesto_existe s usuario_id categoria = false then (false, s)
  else if periodicidadTruthy periodicidad then
    (true, { s with presupuestos := s.presupuestos.map fun p =>
      if p.usuario_id == usuario_id && p.categoria == categoria then
        { p with monto := monto, periodicidad := periodicidad.getD p.periodicidad }
      else p })
  else
    (true, { s with presupuestos := s.presupuestos.map fun p =>
      if p.usuario_id == usuario_id && p.categoria == categoria then
        { p with monto := monto }
      else p })

/-- DELETE of a budget and of its movements, in one transaction.
Mirrors the source exactly: the existence check normalizes the
category, but both DELETE statements use the raw category argument in
their WHERE clause. -/
def eliminar_presupuesto (s : Store) (usuario_id categoria : String) :
    Bool × Store :=
  if presupuesto_existe s usuario_id categoria = false then (false, s)
  else
    (true,
      { presupuestos := s.presupuestos.filter fun p =>
          !(p.usuario_id == usuario_id && p.categoria == categoria)
        movimientos := s.movimientos.filter fun m =>
          !(m.usuario_id == usuario_id && m.categoria == categoria) })

/-- INSERT of a movement row; always succeeds. -/
def registrar_movimiento (s : Store) (m : Movimiento) : Bool × Store :=
  (true, { s with movimientos := s.movimientos ++ [m] })

/-- Order used by ORDER BY fecha DESC: larger timestamps first. -/
def fechaGe (a b : Movimiento) : Prop := b.fecha ≤ a.fecha

instance : DecidableRel fechaGe := fun a b => Nat.decLe b.fecha a.fecha

instance : IsTotal Movimiento fechaGe := ⟨fun a b => le_total b.fecha a.fecha⟩

instance : IsTrans Movimiento fechaGe := ⟨fun _ _ _ hab hbc => le_trans hbc hab⟩

/-- SELECT of all movements of a key ORDER BY fecha DESC. The lookup
normalizes the category; the source rebuilds each Movimiento passing
the raw category argument, whose constructor normalizes it again. -/
def obtener_historial (s : Store) (usuario_id categoria : String) :
    List Movimiento :=
  ((s.movimientos.filter fun m =>
      m.usuario_id == usuario_id && m.categoria == pyNormalize categoria).insertionSort
    fechaGe).map fun m => { m with categoria := pyNormalize categoria }

/-- SELECT COALESCE(SUM(monto), 0) over the movements of the given
user, category and kind; the empty sum is 0. -/
def sumaMovimientos (s : Store) (usuario_id categoria : String) (tipo : Tipo) : ℚ :=
  ((s.movimientos.filter fun m =>
      m.usuario_id == usuario_id && m.categoria == categoria && m.tipo == tipo).map
    Movimiento.monto).sum

/-- One ResumenPresupuesto per budget row of the user, with the two
aggregate sums and saldo = monto + ingresos - gastos, in table order. -/
def obtener_resumen (s : Store) (usuario_id : String) : List ResumenPresupuesto :=
  (s.presupuestos.filter fun p => p.usuario_id == usuario_id).map fun p =>
    let gastos := sumaMovimientos s usuario_id p.categoria Tipo.gasto
    let ingresos := sumaMovimientos s usuario_id p.categoria Tipo.ingreso
    { categoria := p.categoria
      monto_inicial := p.monto
      gastos := gastos
      ingresos := ingresos
      saldo := p.monto + ingresos - gastos
      periodicidad := p.periodicidad }

end SQLiteRepository

/-! ## Service layer (src/services.py)

Every service operation returns (success, message) as in the source,
plus the next store state.  The user-facing message strings are
modelled as one constructor per message site, carrying the values
interpolated by the f-string of the source. -/

/-- The user-facing messages of src/services.py, one constructor per
f-string of the source, in source order. -/
inductive Msg
  /-- La categoria no puede estar vacia -/
  | categoriaVacia
  /-- El monto debe ser mayor a 0 -/
  | montoInvalido
  /-- Periodicidad debe ser: diario, semanal, mensual, anual -/
  | periodicidadInvalida
  /-- Presupuesto {categoria} creado exitosamente -/
  | presupuestoCreado (categoria : String)
  /-- Ya existe un presupuesto para {categoria} -/
  | presupuestoYaExiste (categoria : String)
  /-- Presupuesto {categoria} actualizado exitosamente -/
  | presupuestoActualizado (categoria : String)
  /-- No existe presupuesto {categoria} -/
  | presupuestoNoExiste (categoria : String)
  /-- Presupuesto {categoria} eliminado exitosamente -/
  | presupuestoEliminado (categoria : String)
  /-- No existe presupuesto {categoria}. Crealo primero con /crear -/
  | noExisteCrealoPrimero (categoria : String)
  /-- Gasto registrado / Ingreso registrado: ${monto} en {categoria} - {concepto} -/
  | movimientoRegistrado (tipo : Tipo) (monto : ℚ) (categoria concepto : String)
  /-- Error al registrar el movimiento -/
  | errorAlRegistrar
  /-- No hay movimientos registrados para {categoria} -/
  | noHayMovimientos (categoria : String)
  /-- Historial obtenido exitosamente -/
  | historialObtenido
deriving DecidableEq

/-- The four accepted periodicity labels. -/
def periodicidades : List String := ["diario", "semanal", "mensual", "anual"]

namespace PresupuestoService

/-- Creation with validations: blank category, non-positive amount and
unknown periodicity are rejected before touching the store; then the
Presupuesto is built (normalizing the category, lowercasing the
periodicity) and handed to the repository. -/
def crear_presupuesto (s : Store) (usuario_id categoria : String) (monto : ℚ)
    (periodicidad : String) (now : Nat) : (Bool × Msg) × Store :=
  if pyStrip categoria = "" then ((false, Msg.categoriaVacia), s)
  else if monto ≤ 0 then ((false, Msg.montoInvalido), s)
  else if pyLowerStr periodicidad ∉ periodicidades then
    ((false, Msg.periodicidadInvalida), s)
  else
    let p := Presupuesto.make usuario_id categoria monto (pyLowerStr periodicidad) now
    let r := SQLiteRepository.crear_presupuesto s p
    if r.1 then ((true, Msg.presupuestoCreado categoria), r.2)
    else ((false, Msg.presupuestoYaExiste categoria), r.2)

/-- Periodicity validation of the update path: the source skips the
check when the argument is falsy (None or the empty string). -/
def periodicidadValida : Option String → Bool
  | none => true
  | some per => per == "" || decide (pyLowerStr per ∈ periodicidades)

/-- Update with validations: non-positive amount first, then the
optional periodicity, then delegation to the repository. The raw
periodicity argument is passed through unchanged. -/
def actualizar_presupuesto (s : Store) (usuario_id categoria : String) (monto : ℚ)
    (periodicidad : Option String) : (Bool × Msg) × Store :=
  if monto ≤ 0 then ((false, Msg.montoInvalido), s)
  else if periodicidadValida periodicidad = false then
    ((false, Msg.periodicidadInvalida), s)
  else
    let r := SQLiteRepository.actualizar_presupuesto s usuario_id categoria monto periodicidad
    if r.1 then ((true, Msg.presupuestoActualizado categoria), r.2)
    else ((false, Msg.presupuestoNoExiste categoria), r.2)

/-- Deletion: direct delegation, message by result. -/
def eliminar_presupuesto (s : Store) (usuario_id categoria : String) :
    (Bool × Msg) × Store :=
  let r := SQLiteRepository.eliminar_presupuesto s usuario_id categoria
  if r.1 then ((true, Msg.presupuestoEliminado categoria), r.2)
  else ((false, Msg.presupuestoNoExiste categoria), r.2)

/-- Pass-through of the summary. -/
def obtener_resumen (s : Store) (usuario_id : String) : List ResumenPresupuesto :=
  SQLiteRepository.obtener_resumen s usuario_id

/-- Pass-through of the existence predicate. -/
def presupuesto_existe (s : Store) (usuario_id categoria : String) : Bool :=
  SQLiteRepository.presupuesto_existe s usuario_id categoria

end PresupuestoService

namespace MovimientoService

/-- Movement recording with validations: the budget must exist
(checked through the budget service, which delegates to the store) and
the amount must be positive; then the Movimiento is built (normalizing
the category) and appended by the repository. -/
def registrar_movimiento (s : Store) (usuario_id categoria : String) (tipo : Tipo)
    (monto : ℚ) (concepto : String) (now : Nat) : (Bool × Msg) × Store :=
  if PresupuestoService.presupuesto_existe s usuario_id categoria = false then
    ((false, Msg.noExisteCrealoPrimero categoria), s)
  else if monto ≤ 0 then ((false, Msg.montoInvalido), s)
  else
    let m := Movimiento.make usuario_id categoria tipo monto concepto now
    let r := SQLiteRepository.registrar_movimiento s m
    if r.1 then ((true, Msg.movimientoRegistrado tipo monto categoria concepto), r.2)
    else ((false, Msg.errorAlRegistrar), r.2)

/-- Expense recording. -/
def registrar_gasto (s : Store) (usuario_id categoria : String) (monto : ℚ)
    (concepto : String) (now : Nat) : (Bool × Msg) × Store :=
  registrar_movimiento s usuario_id categoria Tipo.gasto monto concepto now

/-- Income recording. -/
def registrar_ingreso (s : Store) (usuario_id categoria : String) (monto : ℚ)
    (concepto : String) (now : Nat) : (Bool × Msg) × Store :=
  registrar_movimiento s usuario_id categoria Tipo.ingreso monto concepto now

/-- History: budget-not-found first, then the empty-history failure,
then the full descending sequence. Reads do not change the state. -/
def obtener_historial (s : Store) (usuario_id categoria : String) :
    Bool × Msg × List Movimiento :=
  if PresupuestoService.presupuesto_existe s usuario_id categoria = false then
    (false, Msg.presupuestoNoExiste categoria, [])
  else
    let movimientos := SQLiteRepository.obtener_historial s usuario_id categoria
    if movimientos = [] then (false, Msg.noHayMovimientos categoria, [])
    else (true, Msg.historialObtenido, movimientos)

end MovimientoService

/-! ## Intent parser (src/message_parser.py)

Each source pattern is a compiled regular expression applied with
search semantics (try every start position, leftmost match wins) and
the IGNORECASE flag (implemented by lowercasing both sides of every
literal comparison).  Each matcher below implements one pattern over
the character list of the message; the greedy/optional behaviour of
the concrete patterns coincides with maximal-munch followed by an
explicit alternative, because every repeated class is followed by a
character it cannot match. -/

namespace MessageParser

/-- Case-insensitive literal match: the pattern is given lowercase;
returns the rest of the input on success. -/
def litCI : List Char → List Char → Option (List Char)
  | [], cs => some cs
  | _ :: _, [] => none
  | p :: ps, c :: cs => if pyLowerChar c == p then litCI ps cs else none

/-- Case-insensitive character class: one input character that lowers
to an element of the class. -/
def oneOfCI (opts : List Char) : List Char → Option (List Char)
  | [] => none
  | c :: cs => if opts.contains (pyLowerChar c) then some cs else none

/-- One or more whitespace characters (backslash-s +). -/
def ws1 (cs : List Char) : Option (List Char) :=
  if cs.takeWhile pySpace = [] then none else some (cs.dropWhile pySpace)

/-- Python int applied to a digit string. -/
def digitsToNat (ds : List Char) : Nat :=
  ds.foldl (fun n c => n * 10 + (c.toNat - 48)) 0

/-- One or more digits (backslash-d +), greedy. -/
def digits1 (cs : List Char) : Option (Nat × List Char) :=
  let ds := cs.takeWhile Char.isDigit
  if ds = [] then none else some (digitsToNat ds, cs.dropWhile Char.isDigit)

/-- One or more word characters (backslash-w +), greedy. -/
def word1 (cs : List Char) : Option (List Char × List Char) :=
  let ws := cs.takeWhile pyWordChar
  if ws = [] then none else some (ws, cs.dropWhile pyWordChar)

/-- The optional trailing memo group of the expense and income
patterns: whitespace, the literal por, whitespace, then one or more
non-newline characters, greedy to the end of the line. -/
def grupoConcepto (cs : List Char) : Option String := do
  let r ← ws1 cs
  let r ← litCI "por".data r
  let r ← ws1 r
  let contenido := r.takeWhile (fun c => c != '\n')
  if contenido = [] then none else some (String.mk contenido)

/-- Data extracted by the expense and income patterns: the integer
amount, the lowercased and stripped category, and the stripped memo,
empty when the optional group is absent (extract_data in the source). -/
structure DatosMovimiento where
  monto : Nat
  categoria : String
  concepto : String
deriving DecidableEq

/-- Match of the expense pattern at one position: the verb
alternation, whitespace, amount, whitespace, the literal de,
whitespace, the category word, then the optional memo group. -/
def gastoMatchAt (cs : List Char) : Option DatosMovimiento := do
  let r ← (litCI "gast".data cs >>= oneOfCI ['é', 'e']) <|> litCI "saqué".data cs
  let r ← ws1 r
  let (monto, r) ← digits1 r
  let r ← ws1 r
  let r ← litCI "de".data r
  let r ← ws1 r
  let (palabra, r) ← word1 r
  let concepto := ((grupoConcepto r).map pyStrip).getD ""
  some ⟨monto, pyStrip (pyLowerStr (String.mk palabra)), concepto⟩

/-- Match of the income pattern at one position: same shape with the
income verbs and the literal a as linking word. -/
def ingresoMatchAt (cs : List Char) : Option DatosMovimiento := do
  let r ← (litCI "añad".data cs >>= oneOfCI ['í', 'i'])
    <|> (litCI "agregu".data cs >>= oneOfCI ['é', 'e'])
    <|> (litCI "sum".data cs >>= oneOfCI ['é', 'e'])
  let r ← ws1 r
  let (monto, r) ← digits1 r
  let r ← ws1 r
  let r ← litCI "a".data r
  let r ← ws1 r
  let (palabra, r) ← word1 r
  let concepto := ((grupoConcepto r).map pyStrip).getD ""
  some ⟨monto, pyStrip (pyLowerStr (String.mk palabra)), concepto⟩

/-- Match of the view pattern at one position: the literal ver,
whitespace, an optional greedy group of the literal presupuesto plus
whitespace (with the regex fallback to the bare category word when the
group cannot complete), then the category word. -/
def verMatchAt (cs : List Char) : Option String := do
  let r ← litCI "ver".data cs
  let r ← ws1 r
  let hit ←
    (do
      let r2 ← litCI "presupuesto".data r
      let r2 ← ws1 r2
      let (palabra, _) ← word1 r2
      some palabra)
    <|> (do
      let (palabra, _) ← word1 r
      some palabra)
  some (pyStrip (pyLowerStr (String.mk hit)))

/-- Search semantics of re.search: try the matcher at every start
position from the left; the first position that matches wins. -/
def searchAt {α : Type} (f : List Char → Option α) : List Char → Option α
  | [] => f []
  | c :: cs => f (c :: cs) <|> searchAt f cs

/-- The structured result of MessageParser.parse: the action tag of
the winning pattern together with its extracted data. -/
inductive ParseResult
  | gasto (datos : DatosMovimiento)
  | ingreso (datos : DatosMovimiento)
  | ver_presupuesto (categoria : String)
deriving DecidableEq

/-- MessageParser.parse: strip the message, then try the expense,
income and view patterns in that order; the first pattern that both
matches and extracts wins; otherwise no intent is recognized. -/
def parse (mensaje : String) : Option ParseResult :=
  let m := (pyStrip mensaje).data
  match searchAt gastoMatchAt m with
  | some d => some (ParseResult.gasto d)
  | none =>
    match searchAt ingresoMatchAt m with
    | some d => some (ParseResult.ingreso d)
    | none =>
      match searchAt verMatchAt m with
      | some c => some (ParseResult.ver_presupuesto c)
      | none => none

end MessageParser

/-! ## Spec-side notions and concrete stores used by the claims -/

/-- Validation-failure messages per the error taxonomy of the spec
(section 7): bad user input is blank category, non-positive amount, or
invalid periodicity; the conflict and not-found classes are distinct
from validation. Definition follows the spec wording, for comparison
against the code behaviour. -/
def specValidationMsg : Msg → Bool
  | Msg.categoriaVacia => true
  | Msg.montoInvalido => true
  | Msg.periodicidadInvalida => true
  | _ => false

/-- Invariant of claim C10: every stored category equals its own
lowercased and stripped form. -/
def StoreNormalized (s : Store) : Prop :=
  (∀ p ∈ s.presupuestos, pyNormalize p.categoria = p.categoria) ∧
  (∀ m ∈ s.movimientos, pyNormalize m.categoria = m.categoria)

/-- Store states reachable from the initial empty database through the
state-changing public operations of the facade. -/
inductive Reachable : Store → Prop
  | empty : Reachable Store.empty
  | crear (s : Store) (uid cat : String) (monto : ℚ) (per : String) (now : Nat) :
      Reachable s → Reachable (PresupuestoService.crear_presupuesto s uid cat monto per now).2
  | actualizar (s : Store) (uid cat : String) (monto : ℚ) (per : Option String) :
      Reachable s → Reachable (PresupuestoService.actualizar_presupuesto s uid cat monto per).2
  | eliminar (s : Store) (uid cat : String) :
      Reachable s → Reachable (PresupuestoService.eliminar_presupuesto s uid cat).2
  | gasto (s : Store) (uid cat : String) (monto : ℚ) (concepto : String) (now : Nat) :
      Reachable s → Reachable (MovimientoService.registrar_gasto s uid cat monto concepto now).2
  | ingreso (s : Store) (uid cat : String) (monto : ℚ) (concepto : String) (now : Nat) :
      Reachable s → Reachable (MovimientoService.registrar_ingreso s uid cat monto concepto now).2

/-- Store of the worked example of claim C1: one budget of 100000 with
one expense of 15000 and one income of 5000, built through the public
operations. -/
def c1Store : Store :=
  (MovimientoService.registrar_ingreso
    (MovimientoService.registrar_gasto
      (PresupuestoService.crear_presupuesto Store.empty "u1" "moto" 100000 "mensual" 0).2
      "u1" "moto" 15000 "gasolina" 1).2
    "u1" "moto" 5000 "" 2).2

/-- Store with one budget created under the raw category with spaces
and mixed case, used by claim C3. -/
def c3Store : Store :=
  (PresupuestoService.crear_presupuesto Store.empty "u1" "  Moto " 100000 "mensual" 0).2

/-- Store with one budget and one movement, used by the
counterexample of claim C4. -/
def c4Store : Store :=
  (MovimientoService.registrar_gasto
    (PresupuestoService.crear_presupuesto Store.empty "u2" "moto" 100 "mensual" 0).2
    "u2" "moto" 10 "" 1).2

/-- Store with one budget and one movement, used by the witness of
claim C4. -/
def c4WitStore : Store :=
  (MovimientoService.registrar_gasto
    (PresupuestoService.crear_presupuesto Store.empty "w4" "carro" 200 "mensual" 0).2
    "w4" "carro" 20 "" 1).2

/-- Store with two movements of increasing timestamps, used by the
witness of claim C7. -/
def c7WitStore : Store :=
  (MovimientoService.registrar_ingreso
    (MovimientoService.registrar_gasto
      (PresupuestoService.crear_presupuesto Store.empty "w7" "viaje" 300 "anual" 0).2
      "w7" "viaje" 30 "tren" 1).2
    "w7" "viaje" 40 "" 2).2

/-- Store with one budget stored under the normalized category moto,
used by the counterexample of claim C9. -/
def c9Store : Store :=
  (PresupuestoService.crear_presupuesto Store.empty "u3" "moto" 100 "mensual" 0).2

/-- Store with one budget, used by the witness of claim C9. -/
def c9WitStore : Store :=
  (PresupuestoService.crear_presupuesto Store.empty "w9" "casa" 400 "mensual" 7).2

/-! # Theorems -/

/-! ## Idempotence of the category normalization -/

theorem find?_lowerTable_snd_eq_none :
    ∀ q ∈ lowerTable, lowerTable.find? (fun r => r.1 == q.2) = none := by
  decide

theorem pyLowerChar_idem (c : Char) : pyLowerChar (pyLowerChar c) = pyLowerChar c := by
  unfold pyLowerChar
  cases h : lowerTable.find? (fun q => q.1 == c) with
  | none => simp [h]
  | some q =>
      have hq : q ∈ lowerTable := List.mem_of_find?_eq_some h
      simp [find?_lowerTable_snd_eq_none q hq]

theorem list_map_eq_self {α : Type} {f : α → α} {l : List α}
    (h : ∀ x ∈ l, f x = x) : l.map f = l := by
  induction l with
  | nil => rfl
  | cons a t ih =>
      simp only [List.map_cons, h a (by simp)]
      rw [ih (fun x hx => h x (by simp [hx]))]

theorem dropWhile_rdropWhile (p : Char → Bool) {m : List Char}
    (h : m.dropWhile p = m) : (m.rdropWhile p).dropWhile p = m.rdropWhile p := by
  have hpre := List.rdropWhile_prefix p m
  cases hr : m.rdropWhile p with
  | nil => rfl
  | cons a r =>
      rw [hr] at hpre
      obtain ⟨t, ht⟩ := hpre
      have hm := List.dropWhile_eq_self_iff.mp h
      rw [← ht] at hm
      have ha : ¬ p a := by simpa using hm (by simp)
      simp [List.dropWhile_cons, ha]

theorem stripChars_idem (l : List Char) :
    stripChars (stripChars l) = stripChars l := by
  unfold stripChars
  rw [dropWhile_rdropWhile pySpace (List.dropWhile_idempotent pySpace l),
    List.rdropWhile_idempotent]

theorem mem_of_mem_stripChars {x : Char} {l : List Char}
    (h : x ∈ stripChars l) : x ∈ l := by
  unfold stripChars at h
  have h1 := (List.rdropWhile_prefix pySpace (l.dropWhile pySpace)).sublist.subset h
  exact (List.dropWhile_sublist pySpace).subset h1

theorem pyNormalize_idem (s : String) : pyNormalize (pyNormalize s) = pyNormalize s := by
  unfold pyNormalize pyStrip pyLowerStr
  simp only [String.data]
  have hmap : (stripChars (s.data.map pyLowerChar)).map pyLowerChar =
      stripChars (s.data.map pyLowerChar) := by
    refine list_map_eq_self fun x hx => ?_
    have hx2 : x ∈ s.data.map pyLowerChar := mem_of_mem_stripChars hx
    obtain ⟨y, _, rfl⟩ := List.mem_map.mp hx2
    exact pyLowerChar_idem y
  rw [hmap, stripChars_idem]

/-- Looking up a category already in normalized form is the same as
looking up its raw form: the store normalizes the query side. -/
theorem presupuesto_existe_normalize (s : Store) (uid cat : String) :
    SQLiteRepository.presupuesto_existe s uid (pyNormalize cat) =
      SQLiteRepository.presupuesto_existe s uid cat := by
  unfold SQLiteRepository.presupuesto_existe
  rw [pyNormalize_idem]

/-! ## Claim theorems -/

/-- Explicit value of the C1 example store. -/
theorem c1Store_eq : c1Store =
    { presupuestos := [{ categoria := "moto", monto := 100000, periodicidad := "mensual",
                         usuario_id := "u1", creado_en := 0 }]
      movimientos := [{ categoria := "moto", tipo := Tipo.gasto, monto := 15000,
                        usuario_id := "u1", concepto := "gasolina", fecha := 1 },
                      { categoria := "moto", tipo := Tipo.ingreso, monto := 5000,
                        usuario_id := "u1", concepto := "", fecha := 2 }] } := by
  rfl

/-- C1: for every user, summarize returns one summary per budget owned
by that user, in which the expense total is the sum of the amounts of
the matching expense movements (0 when there are none), the income
total the sum of the matching income movements, saldo equals the
initial amount plus income minus expenses, and the used percentage is
expenses divided by the initial amount times 100, with 0 when the
initial amount is 0; on the worked example (initial 100000, one
expense of 15000, one income of 5000) the balance is 90000 and the
used percentage 15. -/
theorem c1_summarize_balance_law :
    (∀ (s : Store) (uid : String),
      SQLiteRepository.obtener_resumen s uid =
        (s.presupuestos.filter fun p => p.usuario_id == uid).map fun p =>
          { categoria := p.categoria
            monto_inicial := p.monto
            gastos := ((s.movimientos.filter fun m =>
                m.usuario_id == uid && m.categoria == p.categoria &&
                  m.tipo == Tipo.gasto).map Movimiento.monto).sum
            ingresos := ((s.movimientos.filter fun m =>
                m.usuario_id == uid && m.categoria == p.categoria &&
                  m.tipo == Tipo.ingreso).map Movimiento.monto).sum
            saldo := p.monto
                + ((s.movimientos.filter fun m =>
                    m.usuario_id == uid && m.categoria == p.categoria &&
                      m.tipo == Tipo.ingreso).map Movimiento.monto).sum
                - ((s.movimientos.filter fun m =>
                    m.usuario_id == uid && m.categoria == p.categoria &&
                      m.tipo == Tipo.gasto).map Movimiento.monto).sum
            periodicidad := p.periodicidad }) ∧
    (∀ r : ResumenPresupuesto,
      r.porcentaje_usado =
        if r.monto_inicial = 0 then 0 else r.gastos / r.monto_inicial * 100) ∧
    SQLiteRepository.obtener_resumen c1Store "u1" =
      [{ categoria := "moto", monto_inicial := 100000, gastos := 15000,
         ingresos := 5000, saldo := 90000, periodicidad := "mensual" }] ∧
    ResumenPresupuesto.porcentaje_usado
      { categoria := "moto", monto_inicial := 100000, gastos := 15000,
        ingresos := 5000, saldo := 90000, periodicidad := "mensual" } = 15 := by
  refine ⟨fun s uid => rfl, fun r => rfl, ?_, ?_⟩
  · rw [c1Store_eq]
    simp [SQLiteRepository.obtener_resumen, SQLiteRepository.sumaMovimientos]
    norm_num
  · norm_num [ResumenPresupuesto.porcentaje_usado]

/-- C8: the parser maps the four literal scenario inputs as specified:
the expense sentence to the expense action with amount 3000, category
moto and memo gasolina; the income sentence to the income action with
amount 5000, category inversion-with-accent and empty memo; the view
sentence to the view action with category moto; and the greeting to no
recognized intent. -/
theorem c8_parser_literal_scenarios :
    MessageParser.parse "Gasté 3000 de moto por gasolina" =
      some (MessageParser.ParseResult.gasto ⟨3000, "moto", "gasolina"⟩) ∧
    MessageParser.parse "Añadí 5000 a inversión" =
      some (MessageParser.ParseResult.ingreso ⟨5000, "inversión", ""⟩) ∧
    MessageParser.parse "Ver presupuesto moto" =
      some (MessageParser.ParseResult.ver_presupuesto "moto") ∧
    MessageParser.parse "hola que tal" = none := by
  refine ⟨by decide, by decide, by decide, by decide⟩

/-- Any creation under a key that already exists fails and returns the
state unchanged, whatever the other arguments are. -/
theorem crear_fails_if_exists (s : Store) (uid cat : String) (monto : ℚ)
    (per : String) (now : Nat) (hcat : pyStrip cat ≠ "")
    (hex : SQLiteRepository.presupuesto_existe s uid cat = true) :
    (PresupuestoService.crear_presupuesto s uid cat monto per now).1.1 = false ∧
    (PresupuestoService.crear_presupuesto s uid cat monto per now).2 = s := by
  unfold PresupuestoService.crear_presupuesto SQLiteRepository.crear_presupuesto
  simp only [Presupuesto.make, presupuesto_existe_normalize, hex]
  simp only [hcat]
  split_ifs <;> simp

/-- C2: creating a budget for a valid key that is not present succeeds
and persists exactly that budget, after which the key exists; any
second creation under the same key fails and leaves the state (hence
every field of the first budget) unchanged; and every failed creation
leaves the state unchanged. -/
theorem c2_create_then_exists :
    (∀ (s : Store) (uid cat : String) (monto : ℚ) (per : String) (now : Nat),
      pyStrip cat ≠ "" → 0 < monto → pyLowerStr per ∈ periodicidades →
      SQLiteRepository.presupuesto_existe s uid cat = false →
      (PresupuestoService.crear_presupuesto s uid cat monto per now).1.1 = true ∧
      (PresupuestoService.crear_presupuesto s uid cat monto per now).2.presupuestos =
        s.presupuestos ++ [Presupuesto.make uid cat monto (pyLowerStr per) now] ∧
      (PresupuestoService.crear_presupuesto s uid cat monto per now).2.movimientos =
        s.movimientos ∧
      SQLiteRepository.presupuesto_existe
        (PresupuestoService.crear_presupuesto s uid cat monto per now).2 uid cat = true ∧
      (∀ (monto2 : ℚ) (per2 : String) (now2 : Nat),
        (PresupuestoService.crear_presupuesto
          (PresupuestoService.crear_presupuesto s uid cat monto per now).2
          uid cat monto2 per2 now2).1.1 = false ∧
        (PresupuestoService.crear_presupuesto
          (PresupuestoService.crear_presupuesto s uid cat monto per now).2
          uid cat monto2 per2 now2).2 =
          (PresupuestoService.crear_presupuesto s uid cat monto per now).2)) ∧
    (∀ (s : Store) (uid cat : String) (monto : ℚ) (per : String) (now : Nat),
      (PresupuestoService.crear_presupuesto s uid cat monto per now).1.1 = false →
      (PresupuestoService.crear_presupuesto s uid cat monto per now).2 = s) := by
  constructor
  · intro s uid cat monto per now hcat hm hper hex
    have hm' : ¬ monto ≤ 0 := not_le.mpr hm
    have h0 : PresupuestoService.crear_presupuesto s uid cat monto per now =
        ((true, Msg.presupuestoCreado cat),
          { s with presupuestos :=
              s.presupuestos ++ [Presupuesto.make uid cat monto (pyLowerStr per) now] }) := by
      unfold PresupuestoService.crear_presupuesto SQLiteRepository.crear_presupuesto
      simp only [Presupuesto.make, presupuesto_existe_normalize, hex]
      simp [hcat, hm', hper, Presupuesto.make]
    have hex1 : SQLiteRepository.presupuesto_existe
        (PresupuestoService.crear_presupuesto s uid cat monto per now).2 uid cat = true := by
      rw [h0]
      unfold SQLiteRepository.presupuesto_existe at *
      simp [Presupuesto.make]
    refine ⟨by rw [h0], by rw [h0], by rw [h0], hex1, ?_⟩
    intro monto2 per2 now2
    exact crear_fails_if_exists _ uid cat monto2 per2 now2 hcat hex1
  · intro s uid cat monto per now
    unfold PresupuestoService.crear_presupuesto SQLiteRepository.crear_presupuesto
    simp only [Presupuesto.make]
    split_ifs <;> simp_all

/-- Witness for C2 at the empty store with key u, moto: the hypotheses
hold and creation succeeds, after which the key exists. -/
theorem c2_create_then_exists_witness :
    (PresupuestoService.crear_presupuesto Store.empty "u" "moto" 100 "mensual" 0).1.1 = true ∧
    SQLiteRepository.presupuesto_existe
      (PresupuestoService.crear_presupuesto Store.empty "u" "moto" 100 "mensual" 0).2
      "u" "moto" = true := by
  have h := c2_create_then_exists.1 Store.empty "u" "moto" 100 "mensual" 0
    (by decide) (by norm_num) (by decide) (by decide)
  exact ⟨h.1, h.2.2.2.1⟩

/-- C5: recording an expense or an income against a key with no budget
fails with the create-it-first message and stores nothing: the state
is returned unchanged. -/
theorem c5_movement_requires_budget :
    ∀ (s : Store) (uid cat : String) (monto : ℚ) (concepto : String) (now : Nat),
      SQLiteRepository.presupuesto_existe s uid cat = false →
      MovimientoService.registrar_gasto s uid cat monto concepto now =
        ((false, Msg.noExisteCrealoPrimero cat), s) ∧
      MovimientoService.registrar_ingreso s uid cat monto concepto now =
        ((false, Msg.noExisteCrealoPrimero cat), s) := by
  intro s uid cat monto concepto now h
  constructor <;>
    simp [MovimientoService.registrar_gasto, MovimientoService.registrar_ingreso,
      MovimientoService.registrar_movimiento, PresupuestoService.presupuesto_existe, h]

/-- Witness for C5 at the empty store: no budget exists for the key
and expense recording fails with the create-it-first message. -/
theorem c5_movement_requires_budget_witness :
    SQLiteRepository.presupuesto_existe Store.empty "u" "moto" = false ∧
    MovimientoService.registrar_gasto Store.empty "u" "moto" 50 "x" 0 =
      ((false, Msg.noExisteCrealoPrimero "moto"), Store.empty) :=
  ⟨by decide, (c5_movement_requires_budget Store.empty "u" "moto" 50 "x" 0 (by decide)).1⟩

/-- C3: the normalization claim fails on update and delete. On the
store holding the budget created as two-spaces-Moto-space (stored as
moto), the key written MOTO-space is reported to exist, yet update
with that spelling reports success while changing nothing, and delete
with that spelling reports success while the budget still exists.
Movement recording and history listing, in contrast, do resolve the
entity under that spelling: only the UPDATE and DELETE statements skip
the normalization. -/
theorem c3_normalization_gap_update_delete :
    SQLiteRepository.presupuesto_existe c3Store "u1" "MOTO " = true ∧
    (PresupuestoService.actualizar_presupuesto c3Store "u1" "MOTO " 500 none).1.1 = true ∧
    (PresupuestoService.actualizar_presupuesto c3Store "u1" "MOTO " 500 none).2 = c3Store ∧
    (PresupuestoService.eliminar_presupuesto c3Store "u1" "MOTO ").1.1 = true ∧
    SQLiteRepository.presupuesto_existe
      (PresupuestoService.eliminar_presupuesto c3Store "u1" "MOTO ").2 "u1" "moto" = true ∧
    (MovimientoService.registrar_gasto c3Store "u1" "MOTO " 10 "x" 5).1.1 = true ∧
    (MovimientoService.obtener_historial
      (MovimientoService.registrar_gasto c3Store "u1" "MOTO " 10 "x" 5).2
      "u1" "moto").1 = true := by
  refine ⟨by decide, by decide, by decide, by decide, by decide, by decide, by decide⟩

/-- Counterexample to C6 as stated: at amount -1 against a key with no
budget, movement recording fails with the not-found class message
(create it first), which is not a validation message in the taxonomy
of the spec. -/
theorem c6_movement_message_counterexample :
    (MovimientoService.registrar_gasto Store.empty "u" "moto" (-1) "" 0).1 =
      (false, Msg.noExisteCrealoPrimero "moto") ∧
    specValidationMsg (Msg.noExisteCrealoPrimero "moto") = false := by
  refine ⟨by decide, by decide⟩

/-- C6 amended: for every amount at most 0, creation, update and
movement recording fail without any storage write; creation and
update always report a validation message (update always the amount
message), and movement recording reports the amount message when the
budget exists and the not-found message when it does not. -/
theorem c6_nonpositive_amount_rejected :
    ∀ (s : Store) (uid cat : String) (monto : ℚ) (per : String)
      (perOpt : Option String) (tipo : Tipo) (concepto : String) (now : Nat),
      monto ≤ 0 →
      ((PresupuestoService.crear_presupuesto s uid cat monto per now).1.1 = false ∧
        (PresupuestoService.crear_presupuesto s uid cat monto per now).2 = s ∧
        specValidationMsg
          (PresupuestoService.crear_presupuesto s uid cat monto per now).1.2 = true) ∧
      PresupuestoService.actualizar_presupuesto s uid cat monto perOpt =
        ((false, Msg.montoInvalido), s) ∧
      ((MovimientoService.registrar_movimiento s uid cat tipo monto concepto now).1.1 = false ∧
        (MovimientoService.registrar_movimiento s uid cat tipo monto concepto now).2 = s ∧
        (SQLiteRepository.presupuesto_existe s uid cat = true →
          (MovimientoService.registrar_movimiento s uid cat tipo monto concepto now).1.2 =
            Msg.montoInvalido) ∧
        (SQLiteRepository.presupuesto_existe s uid cat = false →
          (MovimientoService.registrar_movimiento s uid cat tipo monto concepto now).1.2 =
            Msg.noExisteCrealoPrimero cat)) := by
  intro s uid cat monto per perOpt tipo concepto now hm
  refine ⟨?_, ?_, ?_⟩
  · unfold PresupuestoService.crear_presupuesto
    by_cases hcat : pyStrip cat = "" <;> simp [hcat, hm, specValidationMsg]
  · unfold PresupuestoService.actualizar_presupuesto
    simp [hm]
  · unfold MovimientoService.registrar_movimiento PresupuestoService.presupuesto_existe
    cases hx : SQLiteRepository.presupuesto_existe s uid cat <;> simp [hx, hm]

/-- Witness for C6 at amount -5 on the empty store: all three
operations fail with the stated messages and leave the store empty. -/
theorem c6_nonpositive_amount_rejected_witness :
    (-5 : ℚ) ≤ 0 ∧
    (PresupuestoService.crear_presupuesto Store.empty "u" "moto" (-5) "mensual" 0).2 =
      Store.empty ∧
    PresupuestoService.actualizar_presupuesto Store.empty "u" "moto" (-5) none =
      ((false, Msg.montoInvalido), Store.empty) := by
  have h := c6_nonpositive_amount_rejected Store.empty "u" "moto" (-5) "mensual"
    none Tipo.gasto "" 0 (by norm_num)
  exact ⟨by norm_num, h.1.2.1, h.2.1⟩

/-- Counterexample to C4 as stated: on the store holding the budget
moto of user u2 with one movement, the key written MOTO-space exists
according to budget_exists, and delete reports success, yet the state
is unchanged (neither the budget row nor the movement is removed) and
history still resolves the budget afterwards. -/
theorem c4_delete_counterexample :
    SQLiteRepository.presupuesto_existe c4Store "u2" "MOTO " = true ∧
    (PresupuestoService.eliminar_presupuesto c4Store "u2" "MOTO ").1.1 = true ∧
    (PresupuestoService.eliminar_presupuesto c4Store "u2" "MOTO ").2 = c4Store ∧
    (MovimientoService.obtener_historial
      (PresupuestoService.eliminar_presupuesto c4Store "u2" "MOTO ").2 "u2" "MOTO ").1 =
      true := by
  refine ⟨by decide, by decide, by decide, by decide⟩

/-- C4 amended: for every existing key whose category is supplied in
normalized (lowercased, stripped) form, delete succeeds and in one
step removes both the budget rows and all movement rows stored under
the key, after which the key no longer exists and history reports the
budget as not found; delete on an absent key fails and changes
nothing. -/
theorem c4_delete_cascade :
    (∀ (s : Store) (uid cat : String),
      pyNormalize cat = cat →
      SQLiteRepository.presupuesto_existe s uid cat = true →
      (PresupuestoService.eliminar_presupuesto s uid cat).1.1 = true ∧
      (PresupuestoService.eliminar_presupuesto s uid cat).2.presupuestos =
        s.presupuestos.filter
          (fun p => !(p.usuario_id == uid && p.categoria == pyNormalize cat)) ∧
      (PresupuestoService.eliminar_presupuesto s uid cat).2.movimientos =
        s.movimientos.filter
          (fun m => !(m.usuario_id == uid && m.categoria == pyNormalize cat)) ∧
      SQLiteRepository.presupuesto_existe
        (PresupuestoService.eliminar_presupuesto s uid cat).2 uid cat = false ∧
      MovimientoService.obtener_historial
        (PresupuestoService.eliminar_presupuesto s uid cat).2 uid cat =
        (false, Msg.presupuestoNoExiste cat, [])) ∧
    (∀ (s : Store) (uid cat : String),
      SQLiteRepository.presupuesto_existe s uid cat = false →
      PresupuestoService.eliminar_presupuesto s uid cat =
        ((false, Msg.presupuestoNoExiste cat), s)) := by
  constructor
  · intro s uid cat hnorm hex
    have h0 : PresupuestoService.eliminar_presupuesto s uid cat =
        ((true, Msg.presupuestoEliminado cat),
          { presupuestos := s.presupuestos.filter
              (fun p => !(p.usuario_id == uid && p.categoria == cat))
            movimientos := s.movimientos.filter
              (fun m => !(m.usuario_id == uid && m.categoria == cat)) }) := by
      unfold PresupuestoService.eliminar_presupuesto SQLiteRepository.eliminar_presupuesto
      simp [hex]
    have hexF : SQLiteRepository.presupuesto_existe
        (PresupuestoService.eliminar_presupuesto s uid cat).2 uid cat = false := by
      rw [h0]
      unfold SQLiteRepository.presupuesto_existe
      rw [hnorm]
      rw [List.any_eq_false]
      intro p hp
      have h1 := (List.mem_filter.mp hp).2
      simp only [Bool.not_eq_true'] at h1
      simp [h1]
    refine ⟨by rw [h0], by rw [h0, hnorm], by rw [h0, hnorm], hexF, ?_⟩
    unfold MovimientoService.obtener_historial PresupuestoService.presupuesto_existe
    simp [hexF]
  · intro s uid cat hex
    unfold PresupuestoService.eliminar_presupuesto SQLiteRepository.eliminar_presupuesto
    simp [hex]

/-- Witness for C4 on the store with the budget carro of user w4 and
one movement: the hypotheses hold, delete succeeds and the key no
longer exists afterwards. -/
theorem c4_delete_cascade_witness :
    (PresupuestoService.eliminar_presupuesto c4WitStore "w4" "carro").1.1 = true ∧
    SQLiteRepository.presupuesto_existe
      (PresupuestoService.eliminar_presupuesto c4WitStore "w4" "carro").2
      "w4" "carro" = false := by
  have h := c4_delete_cascade.1 c4WitStore "w4" "carro" (by decide) (by decide)
  exact ⟨h.1, h.2.2.2.1⟩

/-- Counterexample to C9 as stated: on the store holding the budget
moto of user u3 with amount 100, the key written Moto (capital M)
exists according to budget_exists, update to amount 500 reports
success, yet the state is unchanged and the stored amount is still
100: the update did not update the amount. -/
theorem c9_update_counterexample :
    SQLiteRepository.presupuesto_existe c9Store "u3" "Moto" = true ∧
    (PresupuestoService.actualizar_presupuesto c9Store "u3" "Moto" 500 none).1.1 = true ∧
    (PresupuestoService.actualizar_presupuesto c9Store "u3" "Moto" 500 none).2 = c9Store ∧
    c9Store.presupuestos.map Presupuesto.monto = [100] := by
  refine ⟨by decide, by decide, by decide, by decide⟩

/-- C9 amended: for every existing budget whose category is supplied
in normalized form and every positive amount, update with no
periodicity sets the amount of the rows of the key and preserves every
other field of every row (in particular the stored periodicity) and
the movements; update with a truthy valid periodicity sets amount and
periodicity of the rows of the key; a truthy invalid periodicity is
rejected with the validation message and no change; an absent budget
yields the not-found message, distinct from the validation messages,
with no change. -/
theorem c9_update_semantics :
    (∀ (s : Store) (uid cat : String) (monto : ℚ),
      pyNormalize cat = cat →
      0 < monto →
      SQLiteRepository.presupuesto_existe s uid cat = true →
      ((PresupuestoService.actualizar_presupuesto s uid cat monto none).1.1 = true ∧
        (PresupuestoService.actualizar_presupuesto s uid cat monto none).2.presupuestos =
          s.presupuestos.map (fun p =>
            if p.usuario_id == uid && p.categoria == pyNormalize cat then
              { p with monto := monto } else p) ∧
        (PresupuestoService.actualizar_presupuesto s uid cat monto none).2.movimientos =
          s.movimientos) ∧
      (∀ per : String, per ≠ "" → pyLowerStr per ∈ periodicidades →
        (PresupuestoService.actualizar_presupuesto s uid cat monto (some per)).1.1 = true ∧
        (PresupuestoService.actualizar_presupuesto s uid cat monto (some per)).2.presupuestos =
          s.presupuestos.map (fun p =>
            if p.usuario_id == uid && p.categoria == pyNormalize cat then
              { p with monto := monto, periodicidad := per } else p) ∧
        (PresupuestoService.actualizar_presupuesto s uid cat monto (some per)).2.movimientos =
          s.movimientos)) ∧
    (∀ (s : Store) (uid cat : String) (monto : ℚ) (per : String),
      0 < monto → per ≠ "" → pyLowerStr per ∉ periodicidades →
      PresupuestoService.actualizar_presupuesto s uid cat monto (some per) =
        ((false, Msg.periodicidadInvalida), s)) ∧
    (∀ (s : Store) (uid cat : String) (monto : ℚ) (per : Option String),
      0 < monto → PresupuestoService.periodicidadValida per = true →
      SQLiteRepository.presupuesto_existe s uid cat = false →
      PresupuestoService.actualizar_presupuesto s uid cat monto per =
        ((false, Msg.presupuestoNoExiste cat), s)) ∧
    (∀ c : String, specValidationMsg (Msg.presupuestoNoExiste c) = false) := by
  refine ⟨?_, ?_, ?_, fun c => rfl⟩
  · intro s uid cat monto hnorm hm hex
    have hm' : ¬ monto ≤ 0 := not_le.mpr hm
    rw [hnorm]
    constructor
    · unfold PresupuestoService.actualizar_presupuesto
        SQLiteRepository.actualizar_presupuesto
      simp [hm', hex, SQLiteRepository.periodicidadTruthy,
        PresupuestoService.periodicidadValida]
    · intro per hper0 hperV
      unfold PresupuestoService.actualizar_presupuesto
        SQLiteRepository.actualizar_presupuesto
      simp [hm', hex, SQLiteRepository.periodicidadTruthy,
        PresupuestoService.periodicidadValida, hper0, hperV]
  · intro s uid cat monto per hm hper0 hperV
    have hm' : ¬ monto ≤ 0 := not_le.mpr hm
    unfold PresupuestoService.actualizar_presupuesto
    simp [hm', PresupuestoService.periodicidadValida, hper0, hperV]
  · intro s uid cat monto per hm hperV hex
    have hm' : ¬ monto ≤ 0 := not_le.mpr hm
    unfold PresupuestoService.actualizar_presupuesto
      SQLiteRepository.actualizar_presupuesto
    simp [hm', hperV, hex]

/-- Witness for C9 on the store with the budget casa of user w9 at
amount 400: the hypotheses hold, the update to 450 without periodicity
succeeds, and the absent key otro yields the not-found message. -/
theorem c9_update_semantics_witness :
    (PresupuestoService.actualizar_presupuesto c9WitStore "w9" "casa" 450 none).1.1 = true ∧
    PresupuestoService.actualizar_presupuesto c9WitStore "w9" "otro" 450 none =
      ((false, Msg.presupuestoNoExiste "otro"), c9WitStore) := by
  have h1 := (c9_update_semantics.1 c9WitStore "w9" "casa" 450 (by decide)
    (by norm_num) (by decide)).1.1
  have h2 := c9_update_semantics.2.2.1 c9WitStore "w9" "otro" 450 none
    (by norm_num) (by decide) (by decide)
  exact ⟨h1, h2⟩

/-- Inserting an element strictly older than every element of the list
into a descending list appends it at the end. -/
theorem orderedInsert_append_last (a : Movimiento) (m : List Movimiento)
    (h : ∀ x ∈ m, ¬ SQLiteRepository.fechaGe a x) :
    m.orderedInsert SQLiteRepository.fechaGe a = m ++ [a] := by
  induction m with
  | nil => rfl
  | cons b t ih =>
      rw [List.orderedInsert, if_neg (h b (by simp)),
        ih (fun x hx => h x (by simp [hx])), List.cons_append]

/-- Sorting a list whose timestamps strictly increase by descending
timestamp reverses it. -/
theorem insertionSort_reverse_of_strict (l : List Movimiento)
    (h : l.Pairwise (fun a b => a.fecha < b.fecha)) :
    l.insertionSort SQLiteRepository.fechaGe = l.reverse := by
  induction l with
  | nil => rfl
  | cons a t ih =>
      rw [List.insertionSort, ih (List.Pairwise.of_cons h),
        orderedInsert_append_last a t.reverse, List.reverse_cons]
      intro x hx
      have hlt : a.fecha < x.fecha :=
        List.rel_of_pairwise_cons h (List.mem_reverse.mp hx)
      exact not_le.mpr hlt

/-- The category rewrite performed when the history rows are turned
back into Movimiento values is the identity: every selected row
already stores the normalized category. -/
theorem obtener_historial_eq (s : Store) (uid cat : String) :
    SQLiteRepository.obtener_historial s uid cat =
      (s.movimientos.filter fun m =>
        m.usuario_id == uid && m.categoria == pyNormalize cat).insertionSort
        SQLiteRepository.fechaGe := by
  unfold SQLiteRepository.obtener_historial
  refine list_map_eq_self fun m hm => ?_
  have hmem := (List.mem_insertionSort SQLiteRepository.fechaGe).mp hm
  have hcat := (List.mem_filter.mp hmem).2
  have hc : m.categoria = pyNormalize cat := by
    have h1 := Bool.and_elim_right hcat
    exact eq_of_beq h1
  rw [← hc]

/-- C7: history fails with the not-found message when the budget does
not exist; fails with the distinct no-movements message when it exists
with zero movements; and otherwise succeeds with the full movement
list of the key, which is a permutation of the matching stored
movements sorted by descending timestamp, so movements inserted with
strictly increasing timestamps come back newest first. -/
theorem c7_history_semantics :
    ∀ (s : Store) (uid cat : String),
      (SQLiteRepository.presupuesto_existe s uid cat = false →
        MovimientoService.obtener_historial s uid cat =
          (false, Msg.presupuestoNoExiste cat, [])) ∧
      (SQLiteRepository.presupuesto_existe s uid cat = true →
        SQLiteRepository.obtener_historial s uid cat = [] →
        MovimientoService.obtener_historial s uid cat =
          (false, Msg.noHayMovimientos cat, [])) ∧
      (∀ c1 c2 : String, Msg.presupuestoNoExiste c1 ≠ Msg.noHayMovimientos c2) ∧
      (SQLiteRepository.presupuesto_existe s uid cat = true →
        SQLiteRepository.obtener_historial s uid cat ≠ [] →
        MovimientoService.obtener_historial s uid cat =
          (true, Msg.historialObtenido, SQLiteRepository.obtener_historial s uid cat)) ∧
      (SQLiteRepository.obtener_historial s uid cat).Perm
        (s.movimientos.filter fun m =>
          m.usuario_id == uid && m.categoria == pyNormalize cat) ∧
      List.Sorted SQLiteRepository.fechaGe (SQLiteRepository.obtener_historial s uid cat) ∧
      ((s.movimientos.filter fun m =>
          m.usuario_id == uid && m.categoria == pyNormalize cat).Pairwise
            (fun a b => a.fecha < b.fecha) →
        SQLiteRepository.obtener_historial s uid cat =
          (s.movimientos.filter fun m =>
            m.usuario_id == uid && m.categoria == pyNormalize cat).reverse) := by
  intro s uid cat
  refine ⟨?_, ?_, ?_, ?_, ?_, ?_, ?_⟩
  · intro h
    unfold MovimientoService.obtener_historial PresupuestoService.presupuesto_existe
    simp [h]
  · intro h hemp
    unfold MovimientoService.obtener_historial PresupuestoService.presupuesto_existe
    simp [h, hemp]
  · intro c1 c2
    simp
  · intro h hne
    unfold MovimientoService.obtener_historial PresupuestoService.presupuesto_existe
    simp [h, hne]
  · rw [obtener_historial_eq]
    exact List.perm_insertionSort _ _
  · rw [obtener_historial_eq]
    exact List.sorted_insertionSort _ _
  · intro hinc
    rw [obtener_historial_eq]
    exact insertionSort_reverse_of_strict _ hinc

/-- Witness for C7 on the store with the budget viaje of user w7 and
two movements with timestamps 1 and 2: history succeeds with the
repository sequence, which is the reverse of the stored order. -/
theorem c7_history_semantics_witness :
    MovimientoService.obtener_historial c7WitStore "w7" "viaje" =
      (true, Msg.historialObtenido,
        SQLiteRepository.obtener_historial c7WitStore "w7" "viaje") ∧
    SQLiteRepository.obtener_historial c7WitStore "w7" "viaje" =
      (c7WitStore.movimientos.filter fun m =>
        m.usuario_id == "w7" && m.categoria == pyNormalize "viaje").reverse := by
  have h := c7_history_semantics c7WitStore "w7" "viaje"
  exact ⟨h.2.2.2.1 (by decide) (by decide), h.2.2.2.2.2.2 (by decide)⟩

/-- Creation either leaves the state unchanged or appends exactly the
constructed budget row. -/
theorem crear_state_cases (s : Store) (uid cat : String) (monto : ℚ)
    (per : String) (now : Nat) :
    (PresupuestoService.crear_presupuesto s uid cat monto per now).2 = s ∨
    (PresupuestoService.crear_presupuesto s uid cat monto per now).2 =
      { s with presupuestos :=
          s.presupuestos ++ [Presupuesto.make uid cat monto (pyLowerStr per) now] } := by
  unfold PresupuestoService.crear_presupuesto SQLiteRepository.crear_presupuesto
  split_ifs <;>
    first
      | exact Or.inl rfl
      | (cases hx : SQLiteRepository.presupuesto_existe s
            (Presupuesto.make uid cat monto (pyLowerStr per) now).usuario_id
            (Presupuesto.make uid cat monto (pyLowerStr per) now).categoria <;>
          simp [hx])

/-- Update either leaves the state unchanged or rewrites the budget
rows through one of the two SET clauses, which keep the category. -/
theorem actualizar_state_cases (s : Store) (uid cat : String) (monto : ℚ)
    (per : Option String) :
    (PresupuestoService.actualizar_presupuesto s uid cat monto per).2 = s ∨
    (PresupuestoService.actualizar_presupuesto s uid cat monto per).2 =
      { s with presupuestos := s.presupuestos.map fun p =>
          if p.usuario_id == uid && p.categoria == cat then
            { p with monto := monto, periodicidad := per.getD p.periodicidad }
          else p } ∨
    (PresupuestoService.actualizar_presupuesto s uid cat monto per).2 =
      { s with presupuestos := s.presupuestos.map fun p =>
          if p.usuario_id == uid && p.categoria == cat then
            { p with monto := monto }
          else p } := by
  unfold PresupuestoService.actualizar_presupuesto SQLiteRepository.actualizar_presupuesto
  split_ifs <;>
    first
      | exact Or.inl rfl
      | (cases hx : SQLiteRepository.presupuesto_existe s uid cat <;>
          cases ht : SQLiteRepository.periodicidadTruthy per <;>
          simp [hx, ht])

/-- Deletion either leaves the state unchanged or filters both
tables. -/
theorem eliminar_state_cases (s : Store) (uid cat : String) :
    (PresupuestoService.eliminar_presupuesto s uid cat).2 = s ∨
    (PresupuestoService.eliminar_presupuesto s uid cat).2 =
      { presupuestos := s.presupuestos.filter
          (fun p => !(p.usuario_id == uid && p.categoria == cat))
        movimientos := s.movimientos.filter
          (fun m => !(m.usuario_id == uid && m.categoria == cat)) } := by
  unfold PresupuestoService.eliminar_presupuesto SQLiteRepository.eliminar_presupuesto
  cases hx : SQLiteRepository.presupuesto_existe s uid cat <;> simp [hx]

/-- Movement recording either leaves the state unchanged or appends
exactly the constructed movement row. -/
theorem registrar_state_cases (s : Store) (uid cat : String) (tipo : Tipo)
    (monto : ℚ) (concepto : String) (now : Nat) :
    (MovimientoService.registrar_movimiento s uid cat tipo monto concepto now).2 = s ∨
    (MovimientoService.registrar_movimiento s uid cat tipo monto concepto now).2 =
      { s with movimientos :=
          s.movimientos ++ [Movimiento.make uid cat tipo monto concepto now] } := by
  unfold MovimientoService.registrar_movimiento SQLiteRepository.registrar_movimiento
    PresupuestoService.presupuesto_existe
  split_ifs <;> simp_all

/-- C10: in every store state reachable from the empty database
through the public state-changing operations, every stored budget
category and every stored movement category equals its own lowercased
and stripped form: the entity constructors normalize before
persistence, no write stores a raw category, and no operation rewrites
a stored category afterwards. -/
theorem c10_reachable_states_normalized :
    ∀ s : Store, Reachable s → StoreNormalized s := by
  intro s h
  induction h with
  | empty => exact ⟨fun p hp => by simp [Store.empty] at hp, fun m hm => by
      simp [Store.empty] at hm⟩
  | crear s uid cat monto per now _ ih =>
      rcases crear_state_cases s uid cat monto per now with h | h <;> rw [h]
      · exact ih
      · refine ⟨fun p hp => ?_, ih.2⟩
        rcases List.mem_append.mp hp with hp | hp
        · exact ih.1 p hp
        · rw [List.mem_singleton.mp hp]
          exact pyNormalize_idem cat
  | actualizar s uid cat monto per _ ih =>
      rcases actualizar_state_cases s uid cat monto per with h | h | h <;> rw [h]
      · exact ih
      all_goals
        refine ⟨fun p' hp' => ?_, ih.2⟩
      all_goals
        obtain ⟨p, hp, rfl⟩ := List.mem_map.mp hp'
      all_goals
        by_cases hc : (p.usuario_id == uid && p.categoria == cat) = true <;>
          simp only [hc, if_pos, if_neg, Bool.false_eq_true, if_false] <;>
          exact ih.1 p hp
  | eliminar s uid cat _ ih =>
      rcases eliminar_state_cases s uid cat with h | h <;> rw [h]
      · exact ih
      · exact ⟨fun p hp => ih.1 p (List.mem_filter.mp hp).1,
          fun m hm => ih.2 m (List.mem_filter.mp hm).1⟩
  | gasto s uid cat monto concepto now _ ih =>
      rcases registrar_state_cases s uid cat Tipo.gasto monto concepto now with h | h
      all_goals
        unfold MovimientoService.registrar_gasto
        rw [h]
      · exact ih
      · refine ⟨ih.1, fun m hm => ?_⟩
        rcases List.mem_append.mp hm with hm | hm
        · exact ih.2 m hm
        · rw [List.mem_singleton.mp hm]
          exact pyNormalize_idem cat
  | ingreso s uid cat monto concepto now _ ih =>
      rcases registrar_state_cases s uid cat Tipo.ingreso monto concepto now with h | h
      all_goals
        unfold MovimientoService.registrar_ingreso
        rw [h]
      · exact ih
      · refine ⟨ih.1, fun m hm => ?_⟩
        rcases List.mem_append.mp hm with hm | hm
        · exact ih.2 m hm
        · rw [List.mem_singleton.mp hm]
          exact pyNormalize_idem cat

/-- Witness for C10: the store reached by creating a budget under a
raw mixed-case category and recording one expense satisfies the
invariant. -/
theorem c10_reachable_states_normalized_witness :
    StoreNormalized (MovimientoService.registrar_gasto
      (PresupuestoService.crear_presupuesto Store.empty "w10" "  Comida " 100 "mensual" 0).2
      "w10" "COMIDA" 5 "" 1).2 :=
  c10_reachable_states_normalized _
    (Reachable.gasto _ "w10" "COMIDA" 5 "" 1
      (Reachable.crear _ "w10" "  Comida " 100 "mensual" 0 Reachable.empty))

end Monevo
